import Mathlib

/-!
# SeriSSH — verification of the session-bridge and credential-gate behavior

Shallow embedding of `src/seri_ssh/server.py` (the only file with real
logic).  Python `None`-able attributes become `Option` fields; byte strings
become `List Nat` (each entry a byte value); exceptions that the source
catches become `Option`/explicit error results; the log calls of the source
are not observable state and are modelled only where a claim needs to talk
about "logged and continued" (as a `logErr` event).
-/

namespace SeriSSH

/-! ## Credential gate — `SimpleSSHServer` -/

/-- State of `SimpleSSHServer.__init__`: the configured credentials.
`valid_user` / `valid_password` are `None` (here `none`) when the
corresponding CLI flag was not given. -/
structure SimpleSSHServer where
  valid_user : Option String
  valid_password : Option String
  serial_path : Option String
deriving DecidableEq, Repr

/-- Source `SimpleSSHServer.begin_auth`: `return self.valid_password is not None`. -/
def SimpleSSHServer.begin_auth (s : SimpleSSHServer) : Bool :=
  s.valid_password.isSome

/-- Source `SimpleSSHServer.password_auth_supported`: `return True` (unconditionally). -/
def SimpleSSHServer.password_auth_supported (_s : SimpleSSHServer) : Bool :=
  true

/-- Source `SimpleSSHServer.validate_password`:
`ok = (self.valid_user == username and self.valid_password == password)`.
In Python, `None == <str>` is `False`, which the `Option` comparison mirrors. -/
def SimpleSSHServer.validate_password (s : SimpleSSHServer)
    (username password : String) : Bool :=
  (s.valid_user == some username) && (s.valid_password == some password)

/-- Transport boundary, following asyncssh's documented `begin_auth`
semantics: when `begin_auth` returns `False`, authentication is not
required and the connection is immediately granted a session, whatever
credentials (if any) the client presents; when it returns `True`, the
password method is offered iff `password_auth_supported` and the
connection obtains a session through it iff `validate_password` accepts
the presented pair. -/
def obtainsSession (s : SimpleSSHServer) (u p : String) : Bool :=
  if s.begin_auth then s.password_auth_supported && s.validate_password u p
  else true

/-! ## Session bridge — data model

`PTYBridgeSession.__init__` stores `master_fd`, `slave_name` and
`serial_port`; exactly one of `master_fd` / `serial_port` is populated by
`session_factory` (`master_fd = None` when a serial path is configured).
The OS-level device state behind the file descriptor / pySerial object is
modelled inside the corresponding structure. -/

/-- Fixed serial line configuration chosen by `session_factory`
(bytesize, parity, stopbits, flow control, baud rate). -/
structure LineConfig where
  baudrate : Nat
  bytesize : Nat
  parityNone : Bool
  stopbits : Nat
  xonxoff : Bool
  rtscts : Bool
deriving DecidableEq, Repr

/-- A pySerial `Serial` object plus the state of the device behind it.
`faulted` models a device whose I/O calls raise `OSError`
(e.g. the USB adapter was unplugged). -/
structure SerialPort where
  isOpen : Bool
  inBuf : List Nat
  faulted : Bool
  lineConfig : LineConfig
deriving DecidableEq, Repr

/-- The master side of a PTY pair behind `master_fd`.  `peerClosed` records
that the slave side has been closed, in which case a read of the master
returns zero bytes once `buf` is drained (true end-of-stream).
`winsize` is the geometry last set through `TIOCSWINSZ`, as `(cols, rows)`. -/
structure PtyMaster where
  isOpen : Bool
  buf : List Nat
  peerClosed : Bool
  faulted : Bool
  winsize : Option (Nat × Nat)
deriving DecidableEq, Repr

/-- State of `PTYBridgeSession`: the endpoint handles plus whether the event
loop currently holds a read-readiness registration for the endpoint's
descriptor (`loop.add_reader` / `loop.remove_reader`). -/
structure PTYBridgeSession where
  master_fd : Option PtyMaster
  serial_port : Option SerialPort
  readerRegistered : Bool
deriving DecidableEq, Repr

/-- Observable effects of one bridge step, excluding log lines except for
`logErr`, which records that an exception was caught and logged.
`chanWrite` is `self._chan.write(text)`; `chanEof` would be an
end-of-stream signal on the remote channel; `closedEndpoint` is a
successful release of the endpoint handle; `removedReader` is a successful
deregistration of the readiness callback. -/
inductive Event where
  | chanWrite (text : List Char)
  | chanEof
  | closedEndpoint
  | removedReader
  | logErr
deriving DecidableEq, Repr

/-! ## UTF-8 decoding with replacement

Model of Python's `bytes.decode('utf-8', errors='replace')`: a total
function; every maximal invalid subsequence contributes one U+FFFD
replacement character. -/

/-- The replacement character U+FFFD. -/
def replChar : Char := Char.ofNat 0xFFFD

/-- Is `b` a UTF-8 continuation byte (`0x80–0xBF`)? -/
def contOK (b : Nat) : Bool := 0x80 ≤ b && b ≤ 0xBF

/-- Lower bound for the first continuation byte after lead `b1`
(restricts overlong encodings). -/
def cont1Min (b1 : Nat) : Nat :=
  if b1 = 0xE0 then 0xA0 else if b1 = 0xF0 then 0x90 else 0x80

/-- Upper bound for the first continuation byte after lead `b1`
(excludes surrogates and values above U+10FFFF). -/
def cont1Max (b1 : Nat) : Nat :=
  if b1 = 0xED then 0x9F else if b1 = 0xF4 then 0x8F else 0xBF

/-- Total UTF-8 decoder with U+FFFD substitution for invalid input. -/
def utf8DecodeReplace : List Nat → List Char
  | [] => []
  | b1 :: rest =>
    if b1 ≤ 0x7F then Char.ofNat b1 :: utf8DecodeReplace rest
    else if b1 ≤ 0xC1 then replChar :: utf8DecodeReplace rest
    else if b1 ≤ 0xDF then
      match rest with
      | [] => [replChar]
      | b2 :: rest2 =>
        if contOK b2 then
          Char.ofNat ((b1 - 0xC0) * 0x40 + (b2 - 0x80)) :: utf8DecodeReplace rest2
        else replChar :: utf8DecodeReplace (b2 :: rest2)
    else if b1 ≤ 0xEF then
      match rest with
      | [] => [replChar]
      | b2 :: rest2 =>
        if cont1Min b1 ≤ b2 && b2 ≤ cont1Max b1 then
          match rest2 with
          | [] => [replChar]
          | b3 :: rest3 =>
            if contOK b3 then
              Char.ofNat ((b1 - 0xE0) * 0x1000 + (b2 - 0x80) * 0x40 + (b3 - 0x80))
                :: utf8DecodeReplace rest3
            else replChar :: utf8DecodeReplace (b3 :: rest3)
        else replChar :: utf8DecodeReplace (b2 :: rest2)
    else if b1 ≤ 0xF4 then
      match rest with
      | [] => [replChar]
      | b2 :: rest2 =>
        if cont1Min b1 ≤ b2 && b2 ≤ cont1Max b1 then
          match rest2 with
          | [] => [replChar]
          | b3 :: rest3 =>
            if contOK b3 then
              match rest3 with
              | [] => [replChar]
              | b4 :: rest4 =>
                if contOK b4 then
                  Char.ofNat ((b1 - 0xF0) * 0x40000 + (b2 - 0x80) * 0x1000
                      + (b3 - 0x80) * 0x40 + (b4 - 0x80))
                    :: utf8DecodeReplace rest4
                else replChar :: utf8DecodeReplace (b4 :: rest4)
            else replChar :: utf8DecodeReplace (b3 :: rest3)
        else replChar :: utf8DecodeReplace (b2 :: rest2)
    else replChar :: utf8DecodeReplace rest

/-! ## Session bridge — endpoint → remote pump (`_on_master_readable`) -/

/-- One serial read attempt of `_on_master_readable`:
`in_waiting` consulted first, `read(1024)` only when bytes are waiting,
otherwise `b""`.  `none` models an `OSError`/exception raised by the
driver (caught by the surrounding `try`). -/
def SerialPort.readStep (sp : SerialPort) : Option (List Nat) :=
  if sp.faulted || !sp.isOpen then none
  else if 0 < sp.inBuf.length then some (sp.inBuf.take 1024)
  else some []

/-- One PTY read attempt of `_on_master_readable`:
`os.read(self._master_fd, 1024)`; returns zero bytes when the slave side
closed and no data remains; `none` models a raised `OSError` (caught). -/
def PtyMaster.readStep (m : PtyMaster) : Option (List Nat) :=
  if m.faulted || !m.isOpen then none
  else some (m.buf.take 1024)

/-- The `try` block of `_on_master_readable`: serial read when
`self._serial_port is not None`, PTY read otherwise.  `none` = an
exception was raised (and will be caught, with `data = b""`). -/
def readRaw (s : PTYBridgeSession) : Option (List Nat) :=
  match s.serial_port with
  | some sp => sp.readStep
  | none =>
    match s.master_fd with
    | some m => m.readStep
    | none => none

/-- Bytes handed out by a successful read are consumed from the device
buffer (the OS side effect of `read`). -/
def consumeRead (s : PTYBridgeSession) (n : Nat) : PTYBridgeSession :=
  match s.serial_port with
  | some sp => { s with serial_port := some { sp with inBuf := sp.inBuf.drop n } }
  | none =>
    match s.master_fd with
    | some m => { s with master_fd := some { m with buf := m.buf.drop n } }
    | none => s

/-- Source `PTYBridgeSession._on_master_readable`: read (any exception caught,
logged, `data = b""`); if `data` is nonempty, decode with replacement and
write the whole chunk to the channel once; otherwise do nothing
("No data available, not sending EOF"). -/
def on_master_readable (s : PTYBridgeSession) : PTYBridgeSession × List Event :=
  match readRaw s with
  | none => (s, [Event.logErr])
  | some [] => (s, [])
  | some (b :: bs) =>
    (consumeRead s (b :: bs).length, [Event.chanWrite (utf8DecodeReplace (b :: bs))])

/-! ## Spec-side state mapping -/

/-- The spec's session states (§4.3). -/
inductive Phase where
  | Opening
  | Active
  | Closing
  | Closed
deriving DecidableEq, Repr

/-- Is the session's endpoint handle open? -/
def endpointOpen (s : PTYBridgeSession) : Bool :=
  match s.serial_port with
  | some sp => sp.isOpen
  | none =>
    match s.master_fd with
    | some m => m.isOpen
    | none => false

/-- Spec-side definition, following the words of §4.3 of the design: the
Python code keeps no explicit state field, so the spec's state names map
onto the resource state: `Active` iff the endpoint handle is open and the
readiness registration exists; `Closing` iff the handle is open but the
registration was removed; `Closed` iff the handle has been released. -/
def specPhase (s : PTYBridgeSession) : Phase :=
  if !endpointOpen s then Phase.Closed
  else if s.readerRegistered then Phase.Active
  else Phase.Closing

/-! ## Remote → endpoint (`data_received`) -/

/-- Outcome of the single non-blocking device write call issued for a
chunk, chosen by the environment: the device accepts `n` bytes (possibly
fewer than offered), or the call raises an exception. -/
inductive WriteOutcome where
  | accepts (n : Nat)
  | raises
deriving DecidableEq, Repr

/-- Source `PTYBridgeSession.data_received`: one chunk arriving from the remote
channel is written to the endpoint with a single write call
(`serial_port.write` + `flush`, or `os.write(master_fd, ...)`); the
returned `bytes_written` is only logged, the unwritten remainder of a
partial write is not retained and the chunk is never re-written;
exceptions are caught and logged.  Result: the bytes actually delivered to
the device, and the events. -/
def data_received (s : PTYBridgeSession) (data : List Nat) (w : WriteOutcome) :
    List Nat × List Event :=
  match s.serial_port with
  | some _ =>
    match w with
    | .accepts n => (data.take n, [])
    | .raises => ([], [Event.logErr])
  | none =>
    match s.master_fd with
    | some _ =>
      match w with
      | .accepts n => (data.take n, [])
      | .raises => ([], [Event.logErr])
    | none => ([], [])

/-- Bytes delivered to the endpoint across a sequence of remote chunks,
each chunk with its own write outcome (`data_received` applied once per
chunk, in arrival order). -/
def deliveredSeq (s : PTYBridgeSession) :
    List (List Nat) → List WriteOutcome → List Nat
  | [], _ => []
  | _ :: _, [] => []
  | c :: cs, w :: ws => (data_received s c w).1 ++ deliveredSeq s cs ws

/-! ## Teardown paths -/

/-- Source `PTYBridgeSession.eof_received`: close the serial port (pySerial's
`close` of an already-closed port is a no-op) or `os.close(self._master_fd)`
(raises `EBADF` when the descriptor was already closed — caught and
logged).  The readiness registration is not touched.  The method returns
`True` to the transport (not modelled). -/
def eof_received (s : PTYBridgeSession) : PTYBridgeSession × List Event :=
  match s.serial_port with
  | some sp =>
    ({ s with serial_port := some { sp with isOpen := false } },
      if sp.isOpen then [Event.closedEndpoint] else [])
  | none =>
    match s.master_fd with
    | some m =>
      if m.isOpen then
        ({ s with master_fd := some { m with isOpen := false } },
          [Event.closedEndpoint])
      else (s, [Event.logErr])
    | none => (s, [Event.logErr])

/-- Source `PTYBridgeSession.connection_lost`: re-derive `reader_fd`
(`serial_port.fileno()` yields no usable descriptor once the port has been
closed, so removal is skipped in that case) and remove the readiness
registration; `loop.remove_reader` of a descriptor without a registration
returns `False` without raising. -/
def connection_lost (s : PTYBridgeSession) : PTYBridgeSession × List Event :=
  match s.serial_port with
  | some sp =>
    if sp.isOpen then
      ({ s with readerRegistered := false },
        if s.readerRegistered then [Event.removedReader] else [])
    else (s, [])
  | none =>
    match s.master_fd with
    | some _ =>
      ({ s with readerRegistered := false },
        if s.readerRegistered then [Event.removedReader] else [])
    | none => (s, [])

/-- The `finally` block of `start_server.session_factory`: remove the
readiness registration for the descriptor captured at setup, then close
the endpoint (`serial_port.close()` — a no-op when already closed — or
`os.close(master_fd)` — raises when already closed, caught and logged). -/
def factoryCleanup (s : PTYBridgeSession) : PTYBridgeSession × List Event :=
  let s1 : PTYBridgeSession := { s with readerRegistered := false }
  let ev1 : List Event :=
    if s.readerRegistered then [Event.removedReader] else []
  match s1.serial_port with
  | some sp =>
    ({ s1 with serial_port := some { sp with isOpen := false } },
      ev1 ++ (if sp.isOpen then [Event.closedEndpoint] else []))
  | none =>
    match s1.master_fd with
    | some m =>
      if m.isOpen then
        ({ s1 with master_fd := some { m with isOpen := false } },
          ev1 ++ [Event.closedEndpoint])
      else (s1, ev1 ++ [Event.logErr])
    | none => (s1, ev1)

/-! ## Terminal geometry and request handling -/

/-- Source `set_pty_size(fd, cols, rows)`: `struct.pack("HHHH", rows, cols, 0, 0)`
raises `struct.error` when a value does not fit an unsigned short, and
`fcntl.ioctl(fd, termios.TIOCSWINSZ, winsize)` raises on a closed
descriptor; otherwise the PTY's window size becomes exactly
`cols x rows`.  `none` models a raised exception. -/
def set_pty_size (m : PtyMaster) (cols rows : Nat) : Option PtyMaster :=
  if rows < 0x10000 ∧ cols < 0x10000 then
    if m.isOpen then some { m with winsize := some (cols, rows) } else none
  else none

/-- Source `PTYBridgeSession.pty_received` (arguments other than `width` and
`height` are unused by the source): geometry is propagated only when
`self._master_fd is not None and self._serial_port is None`; exceptions
from `set_pty_size` are caught and logged; otherwise (serial mode) the
request is skipped with a debug log.  Nothing invokes this method: it is
not an asyncssh callback (asyncssh uses `pty_requested` /
`terminal_size_changed`, and under the `session_factory=` wiring geometry
requests are consumed by the internal stream session), so no terminal
geometry ever reaches the PTY. -/
def pty_received (s : PTYBridgeSession) (width height : Nat) :
    PTYBridgeSession × List Event :=
  if s.master_fd.isSome && s.serial_port.isNone then
    match s.master_fd with
    | some m =>
      match set_pty_size m width height with
      | some m2 => ({ s with master_fd := some m2 }, [])
      | none => (s, [Event.logErr])
    | none => (s, [])
  else (s, [])

/-- Source `PTYBridgeSession.shell_requested`: `return True`.  Nothing in
the program invokes this method: with `session_factory=` supplied to
`asyncssh.create_server`, session requests are handled by asyncssh's
internal stream session and `SSHServer.session_requested` (which returns
`None`) is what would have had to install `PTYBridgeSession` as the
asyncssh session. -/
def shell_requested (_s : PTYBridgeSession) : Bool := true

/-- Source `PTYBridgeSession.exec_requested`: `return False`, for every
command string.  Dead code for the same reason as `shell_requested`. -/
def exec_requested (_s : PTYBridgeSession) (_command : String) : Bool := false

/-- Transport boundary: because `start_server` passes `session_factory=`
to `asyncssh.create_server`, shell and exec requests are answered by
asyncssh's internal `SSHServerStreamSession`, whose `exec_requested`
returns `True` for every command and starts the factory coroutine (the
command string is ignored); the bridge's own request methods are never
consulted. -/
def liveExecAccepted (_command : String) : Bool := true

/-- Projection used to observe geometry propagation: the window size of
the session's PTY master, `none` when there is no PTY master or the size
has never been set. -/
def ptyWinsize (s : PTYBridgeSession) : Option (Nat × Nat) :=
  match s.master_fd with
  | some m => m.winsize
  | none => none

/-- The session states the program actually reaches, per the live wiring:
`session_factory` opens a fresh endpoint (open handle, window size of a
fresh PTY pair never set by this program) and registers the readiness
callback; thereafter the only callbacks that run against the session are
`_on_master_readable` (registered with `add_reader`) and `data_received`
(invoked from the factory's `async for` loop, which leaves the session
state unchanged); teardown happens solely in the factory's `finally`
block.  `eof_received`, `connection_lost` and `pty_received` are not
asyncssh callbacks in this wiring and are invoked by nothing, so they
contribute no transition. -/
inductive Reachable : PTYBridgeSession → Prop where
  | startPty (m : PtyMaster) (ho : m.isOpen = true) (hw : m.winsize = none) :
      Reachable
        { master_fd := some m, serial_port := none, readerRegistered := true }
  | startSerial (sp : SerialPort) (ho : sp.isOpen = true) :
      Reachable
        { master_fd := none, serial_port := some sp, readerRegistered := true }
  | readable (s : PTYBridgeSession) (h : Reachable s) :
      Reachable (on_master_readable s).1
  | cleanup (s : PTYBridgeSession) (h : Reachable s) :
      Reachable (factoryCleanup s).1

/-! ## Concrete sessions used to evaluate single claims -/

/-- The serial line configuration `session_factory` passes to pySerial:
8 data bits, no parity, 1 stop bit, no flow control, default baud. -/
def defaultLineConfig : LineConfig :=
  { baudrate := 115200, bytesize := 8, parityNone := true, stopbits := 1,
    xonxoff := false, rtscts := false }

/-- An Active PTY-backed session whose slave side has been closed and
whose buffered output has been drained: the next read returns zero
bytes — a true end-of-stream. -/
def ptyEofSession : PTYBridgeSession :=
  { master_fd := some
      { isOpen := true, buf := [], peerClosed := true, faulted := false,
        winsize := none },
    serial_port := none, readerRegistered := true }

/-- An Active serial-backed session whose device has disappeared: every
read raises `OSError` — an unrecoverable I/O error. -/
def serialGoneSession : PTYBridgeSession :=
  { master_fd := none,
    serial_port := some
      { isOpen := true, inBuf := [], faulted := true,
        lineConfig := defaultLineConfig },
    readerRegistered := true }

/-- An Active PTY-backed session with the two bytes `"hi"` waiting on the
master side. -/
def ptyHiSession : PTYBridgeSession :=
  { master_fd := some
      { isOpen := true, buf := [104, 105], peerClosed := false,
        faulted := false, winsize := none },
    serial_port := none, readerRegistered := true }

/-- An Active PTY-backed session, idle, used to exercise the teardown and
resize paths. -/
def ptyIdleSession : PTYBridgeSession :=
  { master_fd := some
      { isOpen := true, buf := [], peerClosed := false, faulted := false,
        winsize := none },
    serial_port := none, readerRegistered := true }

/-- An Active serial-backed session, idle and healthy. -/
def serialIdleSession : PTYBridgeSession :=
  { master_fd := none,
    serial_port := some
      { isOpen := true, inBuf := [], faulted := false,
        lineConfig := defaultLineConfig },
    readerRegistered := true }

end SeriSSH

namespace SeriSSH

/-- C1: the claim says that with the password unconfigured, password
authentication is disabled entirely and no incoming connection can ever
authenticate and obtain a session.  Evaluating the program at the failing
input — server started with user `"root"` and no password — `begin_auth`
returns `False`, which under asyncssh's documented semantics means no
authentication is required: every connection is granted a session with no
credential check at all.  Here the pair `("anyone", "whatever")`, which
`validate_password` rejects, still obtains a session. -/
theorem c1_absent_password_grants_session :
    SimpleSSHServer.begin_auth ⟨some "root", none, none⟩ = false
    ∧ SimpleSSHServer.validate_password
        ⟨some "root", none, none⟩ "anyone" "whatever" = false
    ∧ obtainsSession ⟨some "root", none, none⟩ "anyone" "whatever" = true := by
  decide

/-- C2: `validate_password` accepts `(u, p)` iff `u` equals the configured
username and `p` equals the configured password; in particular it rejects
every pair when either credential is unconfigured. -/
theorem c2_validate_password_exact (s : SimpleSSHServer) (u p : String) :
    (s.validate_password u p = true ↔
      (s.valid_user = some u ∧ s.valid_password = some p))
    ∧ ((s.valid_user = none ∨ s.valid_password = none) →
      s.validate_password u p = false) := by
  constructor
  · simp [SimpleSSHServer.validate_password]
  · rintro (h | h) <;> simp [SimpleSSHServer.validate_password, h]

/-- C2 witness: the configured pair is accepted, a wrong password is
rejected, and an unconfigured gate rejects the same pair. -/
theorem c2_validate_password_exact_witness :
    SimpleSSHServer.validate_password ⟨some "ops", some "pw", none⟩ "ops" "pw" = true
    ∧ SimpleSSHServer.validate_password ⟨some "ops", some "pw", none⟩ "ops" "nope" = false
    ∧ SimpleSSHServer.validate_password ⟨none, none, none⟩ "ops" "pw" = false := by
  refine ⟨(c2_validate_password_exact ⟨some "ops", some "pw", none⟩ "ops" "pw").1.mpr
      ⟨rfl, rfl⟩, ?_, ?_⟩
  · by_contra h
    rw [Bool.not_eq_false] at h
    have hc := (c2_validate_password_exact ⟨some "ops", some "pw", none⟩ "ops" "nope").1.mp h
    exact absurd hc.2 (by decide)
  · exact (c2_validate_password_exact ⟨none, none, none⟩ "ops" "pw").2 (Or.inl rfl)

/-- Consuming read bytes from a device buffer changes neither the
open-state of the endpoint nor the readiness registration, hence not the
spec-side phase. -/
theorem specPhase_consumeRead (s : PTYBridgeSession) (n : Nat) :
    specPhase (consumeRead s n) = specPhase s := by
  rcases s with ⟨mfd, sp, reg⟩
  rcases sp with - | sp
  · rcases mfd with - | m <;> simp [consumeRead, specPhase, endpointOpen]
  · simp [consumeRead, specPhase, endpointOpen]

/-- Consuming read bytes leaves the readiness registration untouched. -/
theorem readerRegistered_consumeRead (s : PTYBridgeSession) (n : Nat) :
    (consumeRead s n).readerRegistered = s.readerRegistered := by
  rcases s with ⟨mfd, sp, reg⟩
  rcases sp with - | sp
  · rcases mfd with - | m <;> simp [consumeRead]
  · simp [consumeRead]

/-- Consuming read bytes leaves the PTY window size untouched. -/
theorem ptyWinsize_consumeRead (s : PTYBridgeSession) (n : Nat) :
    ptyWinsize (consumeRead s n) = ptyWinsize s := by
  rcases s with ⟨mfd, sp, reg⟩
  rcases sp with - | sp
  · rcases mfd with - | m <;> simp [consumeRead, ptyWinsize]
  · simp [consumeRead, ptyWinsize]

/-- The read pump touches only the device buffers, so it preserves the
spec-side phase. -/
theorem specPhase_on_master_readable (s : PTYBridgeSession) :
    specPhase (on_master_readable s).1 = specPhase s := by
  cases h : readRaw s with
  | none => simp [on_master_readable, h]
  | some data =>
    cases data with
    | nil => simp [on_master_readable, h]
    | cons b bs => simp [on_master_readable, h, specPhase_consumeRead]

/-- The read pump preserves the readiness registration. -/
theorem readerRegistered_on_master_readable (s : PTYBridgeSession) :
    (on_master_readable s).1.readerRegistered = s.readerRegistered := by
  cases h : readRaw s with
  | none => simp [on_master_readable, h]
  | some data =>
    cases data with
    | nil => simp [on_master_readable, h]
    | cons b bs => simp [on_master_readable, h, readerRegistered_consumeRead]

/-- The read pump preserves the PTY window size. -/
theorem ptyWinsize_on_master_readable (s : PTYBridgeSession) :
    ptyWinsize (on_master_readable s).1 = ptyWinsize s := by
  cases h : readRaw s with
  | none => simp [on_master_readable, h]
  | some data =>
    cases data with
    | nil => simp [on_master_readable, h]
    | cons b bs => simp [on_master_readable, h, ptyWinsize_consumeRead]

/-- The factory's teardown always ends with the registration removed and
the endpoint handle closed (spec-side phase Closed). -/
theorem factoryCleanup_closed (s : PTYBridgeSession) :
    (factoryCleanup s).1.readerRegistered = false
    ∧ specPhase (factoryCleanup s).1 = Phase.Closed := by
  rcases s with ⟨mfd, sp, reg⟩
  rcases sp with - | sp
  · rcases mfd with - | m
    · simp [factoryCleanup, specPhase, endpointOpen]
    · rcases m with ⟨mo, mb, mp, mf, mw⟩
      cases mo <;> simp [factoryCleanup, specPhase, endpointOpen]
  · simp [factoryCleanup, specPhase, endpointOpen]

/-- The factory's teardown does not change the PTY window size. -/
theorem ptyWinsize_factoryCleanup (s : PTYBridgeSession) :
    ptyWinsize (factoryCleanup s).1 = ptyWinsize s := by
  rcases s with ⟨mfd, sp, reg⟩
  rcases sp with - | sp
  · rcases mfd with - | m
    · simp [factoryCleanup, ptyWinsize]
    · rcases m with ⟨mo, mb, mp, mf, mw⟩
      cases mo <;> simp [factoryCleanup, ptyWinsize]
  · simp [factoryCleanup, ptyWinsize]

/-- C3: the claim says a zero-length read on a PTY whose slave side closed
(true end-of-stream) moves the session to Closing and then Closed and
signals end-of-stream on the remote channel.  Evaluating the code at that
failing input: the readable event is treated as "no data available, not
sending EOF" — the session is returned unchanged (still Active), the
endpoint stays open and no event at all reaches the channel. -/
theorem c3_true_eof_ignored :
    specPhase ptyEofSession = Phase.Active
    ∧ readRaw ptyEofSession = some []
    ∧ on_master_readable ptyEofSession = (ptyEofSession, [])
    ∧ specPhase (on_master_readable ptyEofSession).1 = Phase.Active := by
  decide

/-- C4 counterexample: a serial device that has disappeared (every read
raises `OSError`) is an unrecoverable I/O error, yet the read pump leaves
the session Active, keeps the endpoint handle open and signals no
end-of-stream — refuting the claim that unrecoverable errors drive the
session to Closing and Closed with the remote side observing
end-of-stream. -/
theorem c4_unrecoverable_error_stays_active :
    specPhase serialGoneSession = Phase.Active
    ∧ specPhase (on_master_readable serialGoneSession).1 = Phase.Active
    ∧ (on_master_readable serialGoneSession).2 = [Event.logErr]
    ∧ Event.chanEof ∉ (on_master_readable serialGoneSession).2 := by
  decide

/-- C4 amended: every endpoint read failure — unrecoverable or transient —
is handled identically by the read pump: the exception is caught and
logged, the session is returned exactly as it was (an Active session stays
Active), and no end-of-stream is ever signalled. -/
theorem c4_read_errors_never_close (s : PTYBridgeSession) :
    specPhase (on_master_readable s).1 = specPhase s
    ∧ Event.chanEof ∉ (on_master_readable s).2
    ∧ (readRaw s = none → on_master_readable s = (s, [Event.logErr])) := by
  refine ⟨?_, ?_, ?_⟩
  · cases h : readRaw s with
    | none => simp [on_master_readable, h]
    | some data =>
      cases data with
      | nil => simp [on_master_readable, h]
      | cons b bs => simp [on_master_readable, h, specPhase_consumeRead]
  · cases h : readRaw s with
    | none => simp [on_master_readable, h]
    | some data =>
      cases data with
      | nil => simp [on_master_readable, h]
      | cons b bs => simp [on_master_readable, h]
  · intro h
    simp [on_master_readable, h]

/-- C4 witness: at the concrete vanished-device session, the amended
behavior evaluates as stated. -/
theorem c4_read_errors_never_close_witness :
    on_master_readable serialGoneSession = (serialGoneSession, [Event.logErr]) :=
  (c4_read_errors_never_close serialGoneSession).2.2 (by decide)

/-- Any successful read of the pump returns at most 1024 bytes. -/
theorem readRaw_length_le (s : PTYBridgeSession) (data : List Nat)
    (h : readRaw s = some data) : data.length ≤ 1024 := by
  unfold readRaw SerialPort.readStep PtyMaster.readStep at h
  rcases s with ⟨mfd, sp, reg⟩
  rcases sp with - | sp
  · rcases mfd with - | m
    · cases h
    · simp only at h
      split at h
      · cases h
      · injection h with h'
        rw [← h', List.length_take]
        exact min_le_left _ _
  · simp only at h
    split at h
    · cases h
    · split at h
      · injection h with h'
        rw [← h', List.length_take]
        exact min_le_left _ _
      · injection h with h'
        rw [← h']
        simp

/-- C5: on a readable event in an Active session whose read succeeds: at
most 1024 bytes are read; when at least one byte was read, the whole chunk
is forwarded to the remote channel as exactly one write carrying its
replacement-decoding (`utf8DecodeReplace` is total, so decoding never
fails a session); when zero bytes were read the session is returned
unchanged with no event — no end-of-stream — and stays Active. -/
theorem c5_read_pump_bounded_forward (s : PTYBridgeSession) (data : List Nat)
    (hread : readRaw s = some data) (hact : specPhase s = Phase.Active) :
    data.length ≤ 1024
    ∧ (data ≠ [] →
        (on_master_readable s).2 = [Event.chanWrite (utf8DecodeReplace data)])
    ∧ (data = [] → on_master_readable s = (s, []))
    ∧ specPhase (on_master_readable s).1 = Phase.Active
    ∧ Event.chanEof ∉ (on_master_readable s).2 := by
  refine ⟨readRaw_length_le s data hread, ?_, ?_, ?_, ?_⟩
  · intro hne
    cases data with
    | nil => exact absurd rfl hne
    | cons b bs => simp [on_master_readable, hread]
  · intro he
    subst he
    simp [on_master_readable, hread]
  · cases data with
    | nil => simpa [on_master_readable, hread] using hact
    | cons b bs =>
      rw [show (on_master_readable s).1 = consumeRead s (b :: bs).length by
        simp [on_master_readable, hread]]
      rw [specPhase_consumeRead]
      exact hact
  · cases data with
    | nil => simp [on_master_readable, hread]
    | cons b bs => simp [on_master_readable, hread]

/-- C5 witness: the session with the bytes `"hi"` waiting on the PTY
master forwards them as one channel write of the decoded text. -/
theorem c5_read_pump_bounded_forward_witness :
    (on_master_readable ptyHiSession).2
      = [Event.chanWrite [Char.ofNat 104, Char.ofNat 105]] := by
  have h := (c5_read_pump_bounded_forward ptyHiSession [104, 105]
    (by decide) (by decide)).2.1 (by decide)
  rw [h]
  decide

/-- C6: each remote chunk is delivered to the endpoint by a single write
call whose result is a prefix of the chunk — no byte is duplicated, none
reordered, and the unwritten remainder of a partial write is dropped (the
code retains nothing, so no retained byte can be lost); over any sequence
of chunks, the byte sequence delivered to the endpoint is the
concatenation of exactly one duplication-free prefix per chunk, in arrival
order. -/
theorem c6_short_write_integrity (s : PTYBridgeSession)
    (chunks : List (List Nat)) (ws : List WriteOutcome) :
    (∀ c w, ∃ k, (data_received s c w).1 = c.take k)
    ∧ deliveredSeq s chunks ws
        = (List.zipWith (fun c w => (data_received s c w).1) chunks ws).flatten := by
  constructor
  · intro c w
    rcases hsp : s.serial_port with - | sp
    · rcases hm : s.master_fd with - | m
      · exact ⟨0, by simp [data_received, hsp, hm]⟩
      · cases w with
        | accepts n => exact ⟨n, by simp [data_received, hsp, hm]⟩
        | raises => exact ⟨0, by simp [data_received, hsp, hm]⟩
    · cases w with
      | accepts n => exact ⟨n, by simp [data_received, hsp]⟩
      | raises => exact ⟨0, by simp [data_received, hsp]⟩
  · induction chunks generalizing ws with
    | nil => cases ws <;> simp [deliveredSeq]
    | cons c cs ih =>
      cases ws with
      | nil => simp [deliveredSeq]
      | cons w ws2 => simp [deliveredSeq, ih]

/-- C7: the teardown path is observationally idempotent.  Running the
factory cleanup a second time changes nothing and releases nothing (no
successful endpoint close, no successful deregistration occurs on the
second run — the failed `os.close` of an already-closed descriptor is
caught and only logged); and remote end-of-stream (`eof_received`)
followed by the cleanup releases the handle exactly as often as the
cleanup alone — once — and ends in the same state. -/
theorem c7_teardown_idempotent (s : PTYBridgeSession) :
    (factoryCleanup (factoryCleanup s).1).1 = (factoryCleanup s).1
    ∧ (factoryCleanup (factoryCleanup s).1).2.count Event.closedEndpoint = 0
    ∧ (factoryCleanup (factoryCleanup s).1).2.count Event.removedReader = 0
    ∧ ((eof_received s).2 ++ (factoryCleanup (eof_received s).1).2).count
        Event.closedEndpoint
        = (factoryCleanup s).2.count Event.closedEndpoint
    ∧ ((eof_received s).2 ++ (factoryCleanup (eof_received s).1).2).count
        Event.removedReader
        = (factoryCleanup s).2.count Event.removedReader
    ∧ (factoryCleanup (eof_received s).1).1 = (factoryCleanup s).1 := by
  rcases s with ⟨mfd, sp, reg⟩
  rcases sp with - | sp
  · rcases mfd with - | m
    · cases reg <;> simp [factoryCleanup, eof_received]
    · rcases m with ⟨mo, mb, mp, mf, mw⟩
      cases mo <;> cases reg <;>
        simp [factoryCleanup, eof_received, List.count_cons]
  · rcases sp with ⟨so, sb, sf, sl⟩
    cases so <;> cases reg <;>
      simp [factoryCleanup, eof_received, List.count_cons]

/-- C8: in every reachable state of a session — factory start, readable
events, remote data (which leaves the session state unchanged) and the
factory's `finally` teardown, which removes the reader before closing the
endpoint; `eof_received`/`connection_lost` are invoked by nothing in this
wiring — the read-readiness registration exists iff the session is
Active.  In particular once the session leaves Active (remote
end-of-stream runs the teardown, deregistering first) the registration is
gone and no readiness callback can fire against the endpoint handle. -/
theorem c8_registration_iff_active (s : PTYBridgeSession) (h : Reachable s) :
    s.readerRegistered = true ↔ specPhase s = Phase.Active := by
  induction h with
  | startPty m ho hw => simp [specPhase, endpointOpen, ho]
  | startSerial sp ho => simp [specPhase, endpointOpen, ho]
  | readable t ht ih =>
    rw [readerRegistered_on_master_readable, specPhase_on_master_readable]
    exact ih
  | cleanup t ht ih =>
    rw [(factoryCleanup_closed t).1, (factoryCleanup_closed t).2]
    simp

/-- C8 witness: the invariant instantiated at a concrete freshly started
PTY session. -/
theorem c8_registration_iff_active_witness :
    ptyIdleSession.readerRegistered = true
      ↔ specPhase ptyIdleSession = Phase.Active :=
  c8_registration_iff_active ptyIdleSession (Reachable.startPty _ rfl rfl)

/-- C9: the claim says a terminal-geometry request `(cols, rows)` on a
PTY-backed session sets the window size to exactly `cols x rows`.  But
`pty_received` — and through it `set_pty_size` — has no caller: it is not
an asyncssh callback, and under the `session_factory=` wiring geometry
requests are consumed by asyncssh's internal stream session.  So no
reachable transition of the program ever sets the window size: in every
reachable session state the PTY's window size is still unset, never the
requested `cols x rows`. -/
theorem c9_resize_never_applied (s : PTYBridgeSession) (h : Reachable s) :
    ptyWinsize s = none := by
  induction h with
  | startPty m ho hw => simpa [ptyWinsize] using hw
  | startSerial sp ho => simp [ptyWinsize]
  | readable t ht ih => rw [ptyWinsize_on_master_readable]; exact ih
  | cleanup t ht ih => rw [ptyWinsize_factoryCleanup]; exact ih

/-- C9 witness: the geometry of the concrete freshly started PTY session
is unset, and stays so on every reachable continuation. -/
theorem c9_resize_never_applied_witness : ptyWinsize ptyIdleSession = none :=
  c9_resize_never_applied ptyIdleSession (Reachable.startPty _ rfl rfl)

/-- C10: the claim says every exec-style request is refused while shell
requests are accepted.  Evaluating the program at the failing input (an
exec request for the command `"ls"`): the live handler — asyncssh's
stream session, installed because `session_factory=` is supplied —
accepts the request and starts the bridge session with the command
ignored; the refusal in `PTYBridgeSession.exec_requested` is dead code
that nothing consults. -/
theorem c10_exec_actually_accepted :
    liveExecAccepted "ls" = true
    ∧ exec_requested ptyIdleSession "ls" = false :=
  ⟨rfl, rfl⟩

end SeriSSH
